import Mathlib

/-!
Verification of the authentication and credential-lifecycle subsystem of the
bank-app repository (Go).  The data model and operations below are shallow
embeddings of:

- internal/model: the User and RefreshToken records;
- internal/repository/user_repository.go: the postgres-backed Credential
  Store (userRepo), modelled by the observable behaviour of its SQL queries
  against a database state with unique ids and a unique email constraint;
- the in-memory fake store (MockUserRepository) from the service test files;
- the sentinel-based Credential Service (userService) whose operations map
  store signals (pgx.ErrNoRows, unique-constraint violation 23505) to the
  domain sentinels ErrUserNotFound, ErrEmailAlreadyRegistered,
  ErrInvalidCredentials, ErrInactiveAccount that the controllers and tests
  match with errors.Is;
- the external bcrypt library, modelled by its contract (a digest remembers
  the password and salt it was produced from; verification succeeds exactly
  on that password).

Machine integers (int64 ids, timestamps) are modelled as Int; none of the
operations performs arithmetic that could overflow in practice, and no claim
concerns overflow behaviour.
-/

set_option autoImplicit false

namespace BankApp

/-- Model of a bcrypt digest produced by the external golang.org/x/crypto
bcrypt library.  In Go the digest is an encoded string; here it is an
abstract record of the cost, the salt and the hashed password, which is the
information the encoded string carries.  The contract (spec 4.1) is that
verification succeeds exactly against the password the digest was produced
from. -/
structure Digest where
  cost : Nat
  salt : Nat
  password : String
  deriving DecidableEq, Repr

namespace Bcrypt

/-- bcrypt.DefaultCost in the Go library. -/
def DefaultCost : Nat := 10

/-- Model of bcrypt.GenerateFromPassword: produces a salted digest.  The
salt is drawn from the environment; it is passed explicitly here. -/
def GenerateFromPassword (password : String) (cost salt : Nat) : Digest :=
  { cost := cost, salt := salt, password := password }

/-- Model of bcrypt.CompareHashAndPassword: true exactly when the digest was
produced from this password (the Go function returns nil on match and an
error on mismatch). -/
def CompareHashAndPassword (digest : Digest) (password : String) : Bool :=
  digest.password == password

end Bcrypt

/-- internal/model User record (user_repository rows).  The password hash is
the bcrypt digest (stored as its encoded string in Go). -/
structure User where
  id : Int
  fullName : String
  email : String
  passwordHash : Digest
  role : String
  isActive : Bool
  createdAt : Int
  updatedAt : Int
  deriving DecidableEq, Repr

/-- internal/model RefreshToken record (refresh_tokens rows). -/
structure RefreshToken where
  id : Int
  userId : Int
  token : String
  expiresAt : Int
  createdAt : Int
  deriving DecidableEq, Repr

/-- The error signals crossing the store and service boundaries.  Matching a
constructor models errors.Is against the corresponding sentinel:
noRows is pgx.ErrNoRows, uniqueViolation is a pgconn.PgError with code
23505, the four sentinel constructors are the service package sentinels
(which the in-memory fake store returns directly), and internalError stands
for any fmt.Errorf-wrapped unclassified failure. -/
inductive AppErr where
  | noRows
  | uniqueViolation
  | userNotFound
  | emailAlreadyRegistered
  | invalidCredentials
  | inactiveAccount
  | internalError
  deriving DecidableEq, Repr

/-- The relational store state: the users table, the refresh_tokens table
and the next id the store will assign.  Lists are kept in insertion order;
the store schema enforces unique ids and a unique email constraint. -/
structure Db where
  users : List User
  tokens : List RefreshToken
  nextId : Int
  deriving DecidableEq, Repr

/-- Store-level well-formedness: distinct rows carry distinct ids and
distinct emails, and refresh-token strings are unique, as the schema
constraints guarantee. -/
def Db.Wf (db : Db) : Prop :=
  db.users.Pairwise (fun a b => a.id ≠ b.id ∧ a.email ≠ b.email) ∧
  db.tokens.Pairwise (fun a b => a.token ≠ b.token)

instance (db : Db) : Decidable db.Wf := by
  unfold Db.Wf; infer_instance

namespace Repo

/-- userRepo.GetUserByID: SELECT by id; no row gives pgx.ErrNoRows. -/
def GetUserByID (db : Db) (id : Int) : Except AppErr User :=
  match db.users.find? (fun u => u.id == id) with
  | some u => .ok u
  | none => .error .noRows

/-- userRepo.GetUserByEmail: SELECT by email; no row gives pgx.ErrNoRows. -/
def GetUserByEmail (db : Db) (email : String) : Except AppErr User :=
  match db.users.find? (fun u => u.email == email) with
  | some u => .ok u
  | none => .error .noRows

/-- userRepo.AddUser: sets created_at and updated_at to the store clock
(time.Now() inside the repository), INSERTs, and RETURNING id populates the
record.  A duplicate email violates the unique constraint (pg code 23505)
and the row is not written. -/
def AddUser (db : Db) (u : User) (now : Int) : Except AppErr (Db × User) :=
  if db.users.any (fun w => w.email == u.email) then
    .error .uniqueViolation
  else
    let w : User := { u with id := db.nextId, createdAt := now, updatedAt := now }
    .ok ({ db with users := db.users ++ [w], nextId := db.nextId + 1 }, w)

/-- userRepo.UpdateUserEmail: UPDATE users SET email, updated_at WHERE id.
Zero rows affected gives pgx.ErrNoRows; writing an email owned by a
different row violates the unique constraint.  Updating a row to its own
current email succeeds. -/
def UpdateUserEmail (db : Db) (id : Int) (email : String) (now : Int) :
    Except AppErr Db :=
  if db.users.any (fun w => w.id == id) then
    if db.users.any (fun w => w.email == email && w.id != id) then
      .error .uniqueViolation
    else
      .ok { db with
        users := db.users.map (fun w =>
          if w.id == id then { w with email := email, updatedAt := now } else w) }
  else .error .noRows

/-- userRepo.UpdateUserPassword: UPDATE password_hash, updated_at WHERE id;
zero rows affected gives pgx.ErrNoRows. -/
def UpdateUserPassword (db : Db) (id : Int) (hash : Digest) (now : Int) :
    Except AppErr Db :=
  if db.users.any (fun w => w.id == id) then
    .ok { db with
      users := db.users.map (fun w =>
        if w.id == id then { w with passwordHash := hash, updatedAt := now } else w) }
  else .error .noRows

/-- userRepo.UpdateUserActiveStatus: UPDATE is_active, updated_at WHERE id;
zero rows affected gives pgx.ErrNoRows. -/
def UpdateUserActiveStatus (db : Db) (id : Int) (isActive : Bool) (now : Int) :
    Except AppErr Db :=
  if db.users.any (fun w => w.id == id) then
    .ok { db with
      users := db.users.map (fun w =>
        if w.id == id then { w with isActive := isActive, updatedAt := now } else w) }
  else .error .noRows

/-- userRepo.DeleteUserByID: DELETE WHERE id; zero rows affected gives
pgx.ErrNoRows. -/
def DeleteUserByID (db : Db) (id : Int) : Except AppErr Db :=
  if db.users.any (fun w => w.id == id) then
    .ok { db with users := db.users.filter (fun w => w.id != id) }
  else .error .noRows

/-- userRepo.GetRefreshToken: SELECT by token string; no row gives
pgx.ErrNoRows. -/
def GetRefreshToken (db : Db) (token : String) : Except AppErr RefreshToken :=
  match db.tokens.find? (fun rt => rt.token == token) with
  | some rt => .ok rt
  | none => .error .noRows

/-- userRepo.DeleteRefreshToken: DELETE WHERE token; unconditional and
idempotent, it reports no error when nothing matched. -/
def DeleteRefreshToken (db : Db) (token : String) : Db :=
  { db with tokens := db.tokens.filter (fun rt => rt.token != token) }

/-- userRepo.GetAllUsers: SELECT every user row; it fails only on transport
errors, which are outside this model. -/
def GetAllUsers (db : Db) : Except AppErr (List User) := .ok db.users

/-- userRepo.InsertRefreshToken: INSERT (user_id, token, expires_at,
created_at) binding the fields of the record exactly as supplied by the
caller, RETURNING id.  The refresh_tokens.token column is UNIQUE, so a
duplicate token string violates the constraint; the created_at column has
no default, and the caller-supplied value is what gets written. -/
def InsertRefreshToken (db : Db) (rt : RefreshToken) :
    Except AppErr (Db × RefreshToken) :=
  if db.tokens.any (fun x => x.token == rt.token) then
    .error .uniqueViolation
  else
    let w : RefreshToken := { rt with id := db.nextId }
    .ok ({ db with tokens := db.tokens ++ [w], nextId := db.nextId + 1 }, w)

/-- userRepo.DeleteUserRefreshTokens: DELETE WHERE user_id; unconditional
and idempotent, it reports no error when nothing matched. -/
def DeleteUserRefreshTokens (db : Db) (userId : Int) : Db :=
  { db with tokens := db.tokens.filter (fun rt => rt.userId != userId) }

end Repo

namespace Mock

/-- MockUserRepository.GetUserByID: map lookup; absence returns the domain
sentinel service.ErrUserNotFound rather than the store signal. -/
def GetUserByID (db : Db) (id : Int) : Except AppErr User :=
  match db.users.find? (fun u => u.id == id) with
  | some u => .ok u
  | none => .error .userNotFound

/-- MockUserRepository.GetUserByEmail: map lookup; absence returns
service.ErrUserNotFound. -/
def GetUserByEmail (db : Db) (email : String) : Except AppErr User :=
  match db.users.find? (fun u => u.email == email) with
  | some u => .ok u
  | none => .error .userNotFound

/-- MockUserRepository.AddUser: an existing email returns
service.ErrEmailAlreadyRegistered, otherwise the mock assigns the next id
and the current timestamps and stores the record. -/
def AddUser (db : Db) (u : User) (now : Int) : Except AppErr (Db × User) :=
  if db.users.any (fun w => w.email == u.email) then
    .error .emailAlreadyRegistered
  else
    let w : User := { u with id := db.nextId, createdAt := now, updatedAt := now }
    .ok ({ db with users := db.users ++ [w], nextId := db.nextId + 1 }, w)

/-- MockUserRepository.UpdateUserEmail: unknown id returns
service.ErrUserNotFound; then ANY record holding the email, including the
target record itself, returns service.ErrEmailAlreadyRegistered; otherwise
the record is rewritten. -/
def UpdateUserEmail (db : Db) (id : Int) (email : String) (now : Int) :
    Except AppErr Db :=
  match db.users.find? (fun w => w.id == id) with
  | none => .error .userNotFound
  | some _ =>
    if db.users.any (fun w => w.email == email) then
      .error .emailAlreadyRegistered
    else
      .ok { db with
        users := db.users.map (fun w =>
          if w.id == id then { w with email := email, updatedAt := now } else w) }

/-- MockUserRepository.GetAllUsers: always succeeds with every stored user
(the Go mock walks its id map; the iteration order is modelled as the row
order). -/
def GetAllUsers (db : Db) : Except AppErr (List User) := .ok db.users

/-- MockUserRepository.UpdateUserPassword: an unknown id returns
service.ErrUserNotFound; otherwise the hash and updated-at of the record
are rewritten. -/
def UpdateUserPassword (db : Db) (id : Int) (hash : Digest) (now : Int) :
    Except AppErr Db :=
  match db.users.find? (fun w => w.id == id) with
  | none => .error .userNotFound
  | some _ =>
    .ok { db with
      users := db.users.map (fun w =>
        if w.id == id then { w with passwordHash := hash, updatedAt := now } else w) }

/-- MockUserRepository.UpdateUserActiveStatus: an unknown id returns
service.ErrUserNotFound; otherwise the flag and updated-at are
rewritten. -/
def UpdateUserActiveStatus (db : Db) (id : Int) (isActive : Bool) (now : Int) :
    Except AppErr Db :=
  match db.users.find? (fun w => w.id == id) with
  | none => .error .userNotFound
  | some _ =>
    .ok { db with
      users := db.users.map (fun w =>
        if w.id == id then { w with isActive := isActive, updatedAt := now } else w) }

/-- MockUserRepository.DeleteUserByID: an unknown id returns
service.ErrUserNotFound; otherwise the record is removed from the id map
and the email map, represented here by the single row list. -/
def DeleteUserByID (db : Db) (id : Int) : Except AppErr Db :=
  match db.users.find? (fun w => w.id == id) with
  | none => .error .userNotFound
  | some _ => .ok { db with users := db.users.filter (fun w => w.id != id) }

/-- MockUserRepository.InsertRefreshToken: assigns the next id and the
current clock to the record and reports success, but stores nothing: the
token never reaches any map. -/
def InsertRefreshToken (db : Db) (rt : RefreshToken) (now : Int) :
    Except AppErr (Db × RefreshToken) :=
  .ok ({ db with nextId := db.nextId + 1 },
    { rt with id := db.nextId, createdAt := now })

/-- MockUserRepository.GetRefreshToken: a stub that always succeeds,
fabricating a row with id 1, user id 1, the requested token string, an
expiry one day past the clock (time modelled in seconds) and the clock as
created-at; it never reports not-found. -/
def GetRefreshToken (db : Db) (token : String) (now : Int) :
    Except AppErr RefreshToken :=
  .ok { id := 1, userId := 1, token := token, expiresAt := now + 86400,
        createdAt := now }

/-- MockUserRepository.DeleteRefreshToken: reports success and deletes
nothing. -/
def DeleteRefreshToken (db : Db) (token : String) : Db := db

/-- MockUserRepository.DeleteUserRefreshTokens: reports success and deletes
nothing. -/
def DeleteUserRefreshTokens (db : Db) (userId : Int) : Db := db

end Mock

/-- The caller-populated model.User handed to the service CreateUser: the
PasswordHash field still holds the plaintext password at this point, and
the id and timestamp fields hold whatever the caller left there. -/
structure NewUser where
  id : Int
  fullName : String
  email : String
  password : String
  role : String
  isActive : Bool
  createdAt : Int
  updatedAt : Int
  deriving DecidableEq, Repr

namespace Service

/-- userService.CreateUser: hash the password, default an empty role to
user, force the active flag to true, then AddUser; a store unique-violation
(pg code 23505, seen through the fmt.Errorf wrap by errors.As) maps to the
ErrEmailAlreadyRegistered sentinel, any other store failure is wrapped
unclassified. -/
def CreateUser (db : Db) (u : NewUser) (salt : Nat) (now : Int) :
    Except AppErr (Db × User) :=
  let row : User :=
    { id := u.id, fullName := u.fullName, email := u.email,
      passwordHash := Bcrypt.GenerateFromPassword u.password Bcrypt.DefaultCost salt,
      role := if u.role = "" then "user" else u.role,
      isActive := true, createdAt := u.createdAt, updatedAt := u.updatedAt }
  match Repo.AddUser db row now with
  | .ok r => .ok r
  | .error .uniqueViolation => .error .emailAlreadyRegistered
  | .error _ => .error .internalError

/-- userService.UpdateUserEmail: delegate to the store; pgx.ErrNoRows maps
to ErrUserNotFound, a unique violation maps to ErrEmailAlreadyRegistered. -/
def UpdateUserEmail (db : Db) (id : Int) (email : String) (now : Int) :
    Except AppErr Db :=
  match Repo.UpdateUserEmail db id email now with
  | .ok db2 => .ok db2
  | .error .noRows => .error .userNotFound
  | .error .uniqueViolation => .error .emailAlreadyRegistered
  | .error _ => .error .internalError

/-- userService.UpdateUserPassword: hash then delegate; pgx.ErrNoRows maps
to ErrUserNotFound. -/
def UpdateUserPassword (db : Db) (id : Int) (pwd : String) (salt : Nat) (now : Int) :
    Except AppErr Db :=
  let hashed := Bcrypt.GenerateFromPassword pwd Bcrypt.DefaultCost salt
  match Repo.UpdateUserPassword db id hashed now with
  | .ok db2 => .ok db2
  | .error .noRows => .error .userNotFound
  | .error _ => .error .internalError

/-- userService.UpdateUserActiveStatus: delegate; pgx.ErrNoRows maps to
ErrUserNotFound. -/
def UpdateUserActiveStatus (db : Db) (id : Int) (isActive : Bool) (now : Int) :
    Except AppErr Db :=
  match Repo.UpdateUserActiveStatus db id isActive now with
  | .ok db2 => .ok db2
  | .error .noRows => .error .userNotFound
  | .error _ => .error .internalError

/-- userService.DeleteUserByID: delegate; pgx.ErrNoRows maps to
ErrUserNotFound. -/
def DeleteUserByID (db : Db) (id : Int) : Except AppErr Db :=
  match Repo.DeleteUserByID db id with
  | .ok db2 => .ok db2
  | .error .noRows => .error .userNotFound
  | .error _ => .error .internalError

/-- userService.AuthenticateUser: fetch by email, a missing row gives
ErrInvalidCredentials; a failed password comparison gives
ErrInvalidCredentials; only then an inactive account gives
ErrInactiveAccount; otherwise the user is returned. -/
def AuthenticateUser (db : Db) (email pwd : String) : Except AppErr User :=
  match Repo.GetUserByEmail db email with
  | .error _ => .error .invalidCredentials
  | .ok u =>
    if Bcrypt.CompareHashAndPassword u.passwordHash pwd then
      if u.isActive then .ok u else .error .inactiveAccount
    else .error .invalidCredentials

/-- Modelled from the spec: the ValidateRefreshToken service method called
by AuthController.Refresh is not among the source files; only its caller
and the store operations GetRefreshToken and DeleteRefreshToken are.
Spec 4.4: fetch by token; absent means ErrInvalidCredentials; if now is
past the expiry, delete the stale row best-effort (an error from that
delete is ignored) and return ErrInvalidCredentials; otherwise return the
owning user id.  The result pairs the store state after the call with the
outcome. -/
def ValidateRefreshToken (db : Db) (token : String) (now : Int) :
    Db × Except AppErr Int :=
  match Repo.GetRefreshToken db token with
  | .error _ => (db, .error .invalidCredentials)
  | .ok rt =>
    if now > rt.expiresAt then
      (Repo.DeleteRefreshToken db token, .error .invalidCredentials)
    else
      (db, .ok rt.userId)

end Service

/-- The store state after a CreateUser call: the state the call produced,
or the unchanged input state when the call failed (a failed INSERT writes
nothing). -/
def Db.afterCreate (db : Db) (r : Except AppErr (Db × User)) : Db :=
  match r with
  | .ok (db2, _) => db2
  | .error _ => db

section Helpers

variable {α : Type}

/-- The find function returns the element a when a matches and every match
in the list is a. -/
theorem find_eq_some_of_unique (p : α → Bool) (a : α) :
    ∀ l : List α, a ∈ l → p a = true →
      (∀ b, b ∈ l → p b = true → b = a) → l.find? p = some a := by
  intro l
  induction l with
  | nil => intro h; exact absurd h (List.not_mem_nil a)
  | cons x xs ih =>
    intro hmem hpa huniq
    by_cases hx : p x = true
    · have hxa : x = a := huniq x (List.mem_cons_self x xs) hx
      simp [List.find?, hx, hxa, hpa]
    · have hax : a ∈ xs := by
        rcases List.mem_cons.mp hmem with h | h
        · exact absurd (h ▸ hpa) hx
        · exact h
      have : xs.find? p = some a :=
        ih hax hpa (fun b hb hpb => huniq b (List.mem_cons_of_mem x hb) hpb)
      simp [List.find?, hx, this]

/-- The find function returns none when nothing in the list matches. -/
theorem find_eq_none_of_not_mem (p : α → Bool) (l : List α)
    (h : ∀ b, b ∈ l → p b = false) : l.find? p = none := by
  apply List.find?_eq_none.mpr
  intro b hb
  simp [h b hb]

/-- The any predicate is false when nothing in the list matches. -/
theorem any_eq_false_of_all (p : α → Bool) (l : List α)
    (h : ∀ b, b ∈ l → p b = false) : l.any p = false := by
  apply List.any_eq_false.mpr
  intro b hb
  simp [h b hb]

/-- The find function skips a leading segment in which nothing matches. -/
theorem find_append_right (p : α → Bool) (l1 l2 : List α)
    (h : ∀ b, b ∈ l1 → p b = false) : (l1 ++ l2).find? p = l2.find? p := by
  induction l1 with
  | nil => rfl
  | cons x xs ih =>
    have hx : p x = false := h x (List.mem_cons_self x xs)
    simp only [List.cons_append, List.find?, hx]
    exact ih (fun b hb => h b (List.mem_cons_of_mem x hb))

end Helpers

/-- Two stored users sharing an email are the same row, by the unique email
constraint. -/
theorem wf_email_unique (db : Db) (hwf : db.Wf) :
    ∀ a, a ∈ db.users → ∀ b, b ∈ db.users → a.email = b.email → a = b := by
  intro a ha b hb hab
  by_contra hne
  have hsym : Symmetric (fun a b : User => a.id ≠ b.id ∧ a.email ≠ b.email) := by
    intro x y hxy
    exact ⟨fun h => hxy.1 h.symm, fun h => hxy.2 h.symm⟩
  exact (hwf.1.forall hsym ha hb hne).2 hab

/-- Two stored users sharing an id are the same row, by id uniqueness. -/
theorem wf_id_unique (db : Db) (hwf : db.Wf) :
    ∀ a, a ∈ db.users → ∀ b, b ∈ db.users → a.id = b.id → a = b := by
  intro a ha b hb hab
  by_contra hne
  have hsym : Symmetric (fun a b : User => a.id ≠ b.id ∧ a.email ≠ b.email) := by
    intro x y hxy
    exact ⟨fun h => hxy.1 h.symm, fun h => hxy.2 h.symm⟩
  exact (hwf.1.forall hsym ha hb hne).1 hab

/-- Two stored refresh tokens sharing a token string are the same row. -/
theorem wf_token_unique (db : Db) (hwf : db.Wf) :
    ∀ a, a ∈ db.tokens → ∀ b, b ∈ db.tokens → a.token = b.token → a = b := by
  intro a ha b hb hab
  by_contra hne
  have hsym : Symmetric (fun a b : RefreshToken => a.token ≠ b.token) := by
    intro x y hxy h
    exact hxy h.symm
  exact hwf.2.forall hsym ha hb hne hab

/-- C3: every mutating service operation aimed at an id matching no stored
user reports the ErrUserNotFound sentinel, obtained by mapping the zero-rows
pgx.ErrNoRows signal the store reports for each of these operations. -/
theorem service_not_found_mapping (db : Db) (id : Int)
    (h : ∀ u, u ∈ db.users → u.id ≠ id) :
    (∀ pwd salt now, Service.UpdateUserPassword db id pwd salt now = .error .userNotFound) ∧
    (∀ b now, Service.UpdateUserActiveStatus db id b now = .error .userNotFound) ∧
    Service.DeleteUserByID db id = .error .userNotFound ∧
    (∀ email now, Service.UpdateUserEmail db id email now = .error .userNotFound) ∧
    (∀ hash now, Repo.UpdateUserPassword db id hash now = .error .noRows) ∧
    (∀ b now, Repo.UpdateUserActiveStatus db id b now = .error .noRows) ∧
    Repo.DeleteUserByID db id = .error .noRows ∧
    (∀ email now, Repo.UpdateUserEmail db id email now = .error .noRows) := by
  have hany : db.users.any (fun w => w.id == id) = false := by
    apply any_eq_false_of_all
    intro b hb
    simpa using h b hb
  refine ⟨?_, ?_, ?_, ?_, ?_, ?_, ?_, ?_⟩ <;>
    simp [Service.UpdateUserPassword, Service.UpdateUserActiveStatus,
      Service.DeleteUserByID, Service.UpdateUserEmail,
      Repo.UpdateUserPassword, Repo.UpdateUserActiveStatus,
      Repo.DeleteUserByID, Repo.UpdateUserEmail, hany]

/-- Witness for C3 at a concrete store and id. -/
theorem service_not_found_mapping_witness :
    Service.DeleteUserByID
      { users := [{ id := 1, fullName := "A", email := "a", passwordHash := ⟨10, 1, "p"⟩,
                    role := "user", isActive := true, createdAt := 0, updatedAt := 0 }],
        tokens := [], nextId := 2 } 99 = .error .userNotFound :=
  (service_not_found_mapping _ 99 (by decide)).2.2.1

/-- C4: authentication with an email matching no user and authentication
against an existing email with a non-matching password both fail with the
one ErrInvalidCredentials sentinel, indistinguishable to the caller. -/
theorem authenticate_unified_invalid (db : Db) (email : String) (hwf : db.Wf) :
    ((∀ u, u ∈ db.users → u.email ≠ email) →
      ∀ pwd, Service.AuthenticateUser db email pwd = .error .invalidCredentials) ∧
    (∀ u, u ∈ db.users → u.email = email →
      ∀ pw c s, u.passwordHash = Bcrypt.GenerateFromPassword pw c s →
        ∀ pwd, pwd ≠ pw →
          Service.AuthenticateUser db email pwd = .error .invalidCredentials) := by
  constructor
  · intro h pwd
    have hfind : db.users.find? (fun u => u.email == email) = none := by
      apply find_eq_none_of_not_mem
      intro b hb
      simpa using h b hb
    simp [Service.AuthenticateUser, Repo.GetUserByEmail, hfind]
  · intro u hu he pw c s hhash pwd hne
    have hfind : db.users.find? (fun w => w.email == email) = some u := by
      apply find_eq_some_of_unique _ _ _ hu (by simpa using he)
      intro b hb hpb
      have hb2 : b.email = email := by simpa using hpb
      exact wf_email_unique db hwf b hb u hu (hb2.trans he.symm)
    have hcmp : Bcrypt.CompareHashAndPassword u.passwordHash pwd = false := by
      simp [hhash, Bcrypt.CompareHashAndPassword, Bcrypt.GenerateFromPassword]
      exact fun h => hne h.symm
    simp [Service.AuthenticateUser, Repo.GetUserByEmail, hfind, hcmp]

/-- Witness for C4: on a one-user store both failure causes produce the
same sentinel. -/
theorem authenticate_unified_invalid_witness :
    Service.AuthenticateUser
      { users := [{ id := 1, fullName := "A", email := "a", passwordHash := ⟨10, 1, "p"⟩,
                    role := "user", isActive := true, createdAt := 0, updatedAt := 0 }],
        tokens := [], nextId := 2 } "b" "p" = .error .invalidCredentials ∧
    Service.AuthenticateUser
      { users := [{ id := 1, fullName := "A", email := "a", passwordHash := ⟨10, 1, "p"⟩,
                    role := "user", isActive := true, createdAt := 0, updatedAt := 0 }],
        tokens := [], nextId := 2 } "a" "q" = .error .invalidCredentials := by
  constructor
  · exact (authenticate_unified_invalid _ "b" (by decide)).1 (by decide) "p"
  · exact (authenticate_unified_invalid _ "a" (by decide)).2
      { id := 1, fullName := "A", email := "a", passwordHash := ⟨10, 1, "p"⟩,
        role := "user", isActive := true, createdAt := 0, updatedAt := 0 }
      (by simp) (by decide) "p" 10 1 (by decide) "q" (by decide)

/-- C5: for an inactive stored account, authentication with the correct
password reports ErrInactiveAccount, while any wrong password reports
ErrInvalidCredentials, since the active-status check runs only after
password verification succeeds. -/
theorem authenticate_inactive_after_password (db : Db) (email : String)
    (u : User) (pw : String) (c s : Nat) (hwf : db.Wf) (hu : u ∈ db.users)
    (he : u.email = email) (hhash : u.passwordHash = Bcrypt.GenerateFromPassword pw c s)
    (hin : u.isActive = false) :
    Service.AuthenticateUser db email pw = .error .inactiveAccount ∧
    (∀ pwd, pwd ≠ pw → Service.AuthenticateUser db email pwd = .error .invalidCredentials) := by
  have hfind : db.users.find? (fun w => w.email == email) = some u := by
    apply find_eq_some_of_unique _ _ _ hu (by simpa using he)
    intro b hb hpb
    have hb2 : b.email = email := by simpa using hpb
    exact wf_email_unique db hwf b hb u hu (hb2.trans he.symm)
  constructor
  · have hcmp : Bcrypt.CompareHashAndPassword u.passwordHash pw = true := by
      simp [hhash, Bcrypt.CompareHashAndPassword, Bcrypt.GenerateFromPassword]
    simp [Service.AuthenticateUser, Repo.GetUserByEmail, hfind, hcmp, hin]
  · intro pwd hne
    have hcmp : Bcrypt.CompareHashAndPassword u.passwordHash pwd = false := by
      simp [hhash, Bcrypt.CompareHashAndPassword, Bcrypt.GenerateFromPassword]
      exact fun h => hne h.symm
    simp [Service.AuthenticateUser, Repo.GetUserByEmail, hfind, hcmp]

/-- Witness for C5 on a concrete inactive account. -/
theorem authenticate_inactive_after_password_witness :
    Service.AuthenticateUser
      { users := [{ id := 1, fullName := "A", email := "a", passwordHash := ⟨10, 1, "p"⟩,
                    role := "user", isActive := false, createdAt := 0, updatedAt := 0 }],
        tokens := [], nextId := 2 } "a" "p" = .error .inactiveAccount ∧
    Service.AuthenticateUser
      { users := [{ id := 1, fullName := "A", email := "a", passwordHash := ⟨10, 1, "p"⟩,
                    role := "user", isActive := false, createdAt := 0, updatedAt := 0 }],
        tokens := [], nextId := 2 } "a" "x" = .error .invalidCredentials := by
  constructor
  · exact (authenticate_inactive_after_password _ "a"
      { id := 1, fullName := "A", email := "a", passwordHash := ⟨10, 1, "p"⟩,
        role := "user", isActive := false, createdAt := 0, updatedAt := 0 }
      "p" 10 1 (by decide) (by simp) (by decide) (by decide) (by decide)).1
  · exact (authenticate_inactive_after_password _ "a"
      { id := 1, fullName := "A", email := "a", passwordHash := ⟨10, 1, "p"⟩,
        role := "user", isActive := false, createdAt := 0, updatedAt := 0 }
      "p" 10 1 (by decide) (by simp) (by decide) (by decide) (by decide)).2 "x" (by decide)

/-- C2: registering an email already held by a stored user fails with the
ErrEmailAlreadyRegistered sentinel (the constructor the caller matches with
errors.Is), and the store, hence the pre-existing record, is unchanged by
the failed call. -/
theorem createUser_duplicate_email (db : Db) (v : User) (u : NewUser)
    (hv : v ∈ db.users) (he : u.email = v.email) :
    (∀ salt now, Service.CreateUser db u salt now = .error .emailAlreadyRegistered) ∧
    (∀ salt now, db.afterCreate (Service.CreateUser db u salt now) = db) := by
  have hany : db.users.any (fun w => w.email == u.email) = true :=
    List.any_eq_true.mpr ⟨v, hv, by simp [he]⟩
  constructor <;> intro salt now <;>
    simp [Service.CreateUser, Repo.AddUser, hany, Db.afterCreate]

/-- Witness for C2 on a store already holding the email. -/
theorem createUser_duplicate_email_witness :
    Service.CreateUser
      { users := [{ id := 1, fullName := "A", email := "a", passwordHash := ⟨10, 1, "p"⟩,
                    role := "user", isActive := true, createdAt := 0, updatedAt := 0 }],
        tokens := [], nextId := 2 }
      { id := 0, fullName := "B", email := "a", password := "q", role := "",
        isActive := false, createdAt := 0, updatedAt := 0 } 7 5
      = .error .emailAlreadyRegistered :=
  (createUser_duplicate_email _
    { id := 1, fullName := "A", email := "a", passwordHash := ⟨10, 1, "p"⟩,
      role := "user", isActive := true, createdAt := 0, updatedAt := 0 }
    _ (by simp) (by decide)).1 7 5

/-- C6: registration with a free email succeeds; an empty submitted role is
stored as "user", the stored active flag is true regardless of the
caller-supplied value, and the returned record carries the store-assigned
id. -/
theorem createUser_defaults (db : Db) (u : NewUser) (salt : Nat) (now : Int)
    (hfree : ∀ w, w ∈ db.users → w.email ≠ u.email) :
    ∃ db2 w, Service.CreateUser db u salt now = .ok (db2, w) ∧
      (u.role = "" → w.role = "user") ∧
      w.isActive = true ∧
      w.id = db.nextId ∧
      w ∈ db2.users := by
  have hany : db.users.any (fun w => w.email == u.email) = false := by
    apply any_eq_false_of_all
    intro b hb
    simpa using hfree b hb
  refine ⟨{ users := db.users ++
               [{ id := db.nextId, fullName := u.fullName, email := u.email,
                  passwordHash :=
                    Bcrypt.GenerateFromPassword u.password Bcrypt.DefaultCost salt,
                  role := if u.role = "" then "user" else u.role,
                  isActive := true, createdAt := now, updatedAt := now }],
             tokens := db.tokens, nextId := db.nextId + 1 },
    { id := db.nextId, fullName := u.fullName, email := u.email,
      passwordHash := Bcrypt.GenerateFromPassword u.password Bcrypt.DefaultCost salt,
      role := if u.role = "" then "user" else u.role,
      isActive := true, createdAt := now, updatedAt := now },
    ?_, ?_, rfl, rfl, ?_⟩
  · simp [Service.CreateUser, Repo.AddUser, hany]
  · intro h
    simp [h]
  · simp

/-- Witness for C6 at a concrete registration. -/
theorem createUser_defaults_witness :
    ∃ db2 w,
      Service.CreateUser { users := [], tokens := [], nextId := 1 }
        { id := 0, fullName := "B", email := "b", password := "q", role := "",
          isActive := false, createdAt := 3, updatedAt := 4 } 7 5 = .ok (db2, w) ∧
      (("" : String) = "" → w.role = "user") ∧
      w.isActive = true ∧
      w.id = 1 ∧
      w ∈ db2.users :=
  createUser_defaults { users := [], tokens := [], nextId := 1 }
    { id := 0, fullName := "B", email := "b", password := "q", role := "",
      isActive := false, createdAt := 3, updatedAt := 4 } 7 5 (by decide)

/-- C7: updating a user to an email already owned by a different user fails
with the ErrEmailAlreadyRegistered sentinel, while updating a user to their
own current email succeeds. -/
theorem updateEmail_conflict_and_own (db : Db) (u v : User) (hwf : db.Wf)
    (hu : u ∈ db.users) (hv : v ∈ db.users) (hne : u.id ≠ v.id) :
    (∀ now, Service.UpdateUserEmail db u.id v.email now = .error .emailAlreadyRegistered) ∧
    (∀ now, ∃ db2, Service.UpdateUserEmail db u.id u.email now = .ok db2) := by
  have hid : db.users.any (fun w => w.id == u.id) = true :=
    List.any_eq_true.mpr ⟨u, hu, by simp⟩
  constructor
  · intro now
    have hvu : v.id ≠ u.id := fun h => hne h.symm
    have hconf : db.users.any (fun w => w.email == v.email && w.id != u.id) = true := by
      apply List.any_eq_true.mpr
      refine ⟨v, hv, ?_⟩
      simp [hvu]
    simp [Service.UpdateUserEmail, Repo.UpdateUserEmail, hid, hconf]
  · intro now
    have hconf : db.users.any (fun w => w.email == u.email && w.id != u.id) = false := by
      apply any_eq_false_of_all
      intro b hb
      simp only [Bool.and_eq_false_iff]
      by_cases hbe : b.email = u.email
      · right
        have : b = u := wf_email_unique db hwf b hb u hu hbe
        simp [this]
      · left
        simpa using hbe
    refine ⟨{ db with
                users := db.users.map (fun w =>
                  if w.id == u.id then { w with email := u.email, updatedAt := now }
                  else w) }, ?_⟩
    simp [Service.UpdateUserEmail, Repo.UpdateUserEmail, hid, hconf]

/-- Witness for C7 on a two-user store. -/
theorem updateEmail_conflict_and_own_witness :
    Service.UpdateUserEmail
      { users := [{ id := 1, fullName := "A", email := "a", passwordHash := ⟨10, 1, "p"⟩,
                    role := "user", isActive := true, createdAt := 0, updatedAt := 0 },
                  { id := 2, fullName := "B", email := "b", passwordHash := ⟨10, 2, "q"⟩,
                    role := "user", isActive := true, createdAt := 0, updatedAt := 0 }],
        tokens := [], nextId := 3 } 1 "b" 9 = .error .emailAlreadyRegistered ∧
    ∃ db2, Service.UpdateUserEmail
      { users := [{ id := 1, fullName := "A", email := "a", passwordHash := ⟨10, 1, "p"⟩,
                    role := "user", isActive := true, createdAt := 0, updatedAt := 0 },
                  { id := 2, fullName := "B", email := "b", passwordHash := ⟨10, 2, "q"⟩,
                    role := "user", isActive := true, createdAt := 0, updatedAt := 0 }],
        tokens := [], nextId := 3 } 1 "a" 9 = .ok db2 := by
  constructor
  · exact (updateEmail_conflict_and_own _
      { id := 1, fullName := "A", email := "a", passwordHash := ⟨10, 1, "p"⟩,
        role := "user", isActive := true, createdAt := 0, updatedAt := 0 }
      { id := 2, fullName := "B", email := "b", passwordHash := ⟨10, 2, "q"⟩,
        role := "user", isActive := true, createdAt := 0, updatedAt := 0 }
      (by decide) (by simp) (by simp) (by decide)).1 9
  · exact (updateEmail_conflict_and_own _
      { id := 1, fullName := "A", email := "a", passwordHash := ⟨10, 1, "p"⟩,
        role := "user", isActive := true, createdAt := 0, updatedAt := 0 }
      { id := 2, fullName := "B", email := "b", passwordHash := ⟨10, 2, "q"⟩,
        role := "user", isActive := true, createdAt := 0, updatedAt := 0 }
      (by decide) (by simp) (by simp) (by decide)).2 9

/-- C8: registering a fresh email and then authenticating with the same
email and password succeeds and returns the stored record, whose email is
the registered one. -/
theorem register_then_authenticate (db : Db) (u : NewUser) (salt : Nat) (now : Int)
    (hfree : ∀ w, w ∈ db.users → w.email ≠ u.email) :
    ∃ db2 w, Service.CreateUser db u salt now = .ok (db2, w) ∧
      Service.AuthenticateUser db2 u.email u.password = .ok w ∧
      w.email = u.email := by
  have hany : db.users.any (fun w => w.email == u.email) = false := by
    apply any_eq_false_of_all
    intro b hb
    simpa using hfree b hb
  refine ⟨{ users := db.users ++
               [{ id := db.nextId, fullName := u.fullName, email := u.email,
                  passwordHash :=
                    Bcrypt.GenerateFromPassword u.password Bcrypt.DefaultCost salt,
                  role := if u.role = "" then "user" else u.role,
                  isActive := true, createdAt := now, updatedAt := now }],
             tokens := db.tokens, nextId := db.nextId + 1 },
    { id := db.nextId, fullName := u.fullName, email := u.email,
      passwordHash := Bcrypt.GenerateFromPassword u.password Bcrypt.DefaultCost salt,
      role := if u.role = "" then "user" else u.role,
      isActive := true, createdAt := now, updatedAt := now },
    ?_, ?_, rfl⟩
  · simp [Service.CreateUser, Repo.AddUser, hany]
  · have hnone : db.users.find? (fun w => w.email == u.email) = none := by
      apply find_eq_none_of_not_mem
      intro b hb
      simpa using hfree b hb
    simp [Service.AuthenticateUser, Repo.GetUserByEmail, hnone,
      Bcrypt.CompareHashAndPassword, Bcrypt.GenerateFromPassword]

/-- Witness for C8 at a concrete registration and login. -/
theorem register_then_authenticate_witness :
    ∃ db2 w,
      Service.CreateUser { users := [], tokens := [], nextId := 1 }
        { id := 0, fullName := "B", email := "b", password := "q", role := "",
          isActive := false, createdAt := 3, updatedAt := 4 } 7 5 = .ok (db2, w) ∧
      Service.AuthenticateUser db2 "b" "q" = .ok w ∧
      w.email = "b" :=
  register_then_authenticate { users := [], tokens := [], nextId := 1 }
    { id := 0, fullName := "B", email := "b", password := "q", role := "",
      isActive := false, createdAt := 3, updatedAt := 4 } 7 5 (by decide)

/-- C9 counterexample: the refresh-token insert does not get a
store-assigned created-at: it writes the caller-supplied value, so two
calls differing only in the created-at field of the client record write
rows carrying the two different client values. -/
theorem insertRefreshToken_client_timestamp :
    Repo.InsertRefreshToken { users := [], tokens := [], nextId := 1 } ⟨0, 1, "t", 50, 3⟩ =
      .ok ({ users := [], tokens := [⟨1, 1, "t", 50, 3⟩], nextId := 2 },
        ⟨1, 1, "t", 50, 3⟩) ∧
    Repo.InsertRefreshToken { users := [], tokens := [], nextId := 1 } ⟨0, 1, "t", 50, 4⟩ =
      .ok ({ users := [], tokens := [⟨1, 1, "t", 50, 4⟩], nextId := 2 },
        ⟨1, 1, "t", 50, 4⟩) :=
  ⟨rfl, rfl⟩

/-- C9 amended: for the user-record insert and every targeted user-record
update, the timestamps written to the store are assigned by the store at
write time: AddUser ignores the caller-supplied created-at and updated-at
and stamps both with the store clock, and each targeted update
(UpdateUserEmail, UpdateUserPassword, UpdateUserActiveStatus) stamps the
touched row with the store clock.  The refresh-token insert is the
exception: it writes the caller-supplied created-at value. -/
theorem timestamps_user_rows_store_assigned :
    (∀ db u now t1 t2,
      Repo.AddUser db { u with createdAt := t1, updatedAt := t2 } now =
        Repo.AddUser db u now) ∧
    (∀ db u now db2 w, Repo.AddUser db u now = .ok (db2, w) →
      w.createdAt = now ∧ w.updatedAt = now) ∧
    (∀ db id email now db2, Repo.UpdateUserEmail db id email now = .ok db2 →
      ∀ w, w ∈ db2.users → w.id = id → w.updatedAt = now) ∧
    (∀ db id hash now db2, Repo.UpdateUserPassword db id hash now = .ok db2 →
      ∀ w, w ∈ db2.users → w.id = id → w.updatedAt = now) ∧
    (∀ db id b now db2, Repo.UpdateUserActiveStatus db id b now = .ok db2 →
      ∀ w, w ∈ db2.users → w.id = id → w.updatedAt = now) ∧
    (∀ db rt db2 w, Repo.InsertRefreshToken db rt = .ok (db2, w) →
      w.createdAt = rt.createdAt) := by
  refine ⟨?_, ?_, ?_, ?_, ?_, ?_⟩
  · intro db u now t1 t2
    rfl
  · intro db u now db2 w h
    unfold Repo.AddUser at h
    split at h
    · cases h
    · simp only [Except.ok.injEq, Prod.mk.injEq] at h
      obtain ⟨-, hw⟩ := h
      subst hw
      exact ⟨rfl, rfl⟩
  · intro db id email now db2 h w hw hid
    unfold Repo.UpdateUserEmail at h
    split at h
    · split at h
      · cases h
      · simp only [Except.ok.injEq] at h
        subst h
        simp only [List.mem_map] at hw
        obtain ⟨a, ha, rfl⟩ := hw
        by_cases hcase : a.id = id
        · simp [hcase]
        · rw [if_neg (by simpa using hcase)] at hid
          exact absurd hid hcase
    · cases h
  · intro db id hash now db2 h w hw hid
    unfold Repo.UpdateUserPassword at h
    split at h
    · simp only [Except.ok.injEq] at h
      subst h
      simp only [List.mem_map] at hw
      obtain ⟨a, ha, rfl⟩ := hw
      by_cases hcase : a.id = id
      · simp [hcase]
      · rw [if_neg (by simpa using hcase)] at hid
        exact absurd hid hcase
    · cases h
  · intro db id b now db2 h w hw hid
    unfold Repo.UpdateUserActiveStatus at h
    split at h
    · simp only [Except.ok.injEq] at h
      subst h
      simp only [List.mem_map] at hw
      obtain ⟨a, ha, rfl⟩ := hw
      by_cases hcase : a.id = id
      · simp [hcase]
      · rw [if_neg (by simpa using hcase)] at hid
        exact absurd hid hcase
    · cases h
  · intro db rt db2 w h
    unfold Repo.InsertRefreshToken at h
    split at h
    · cases h
    · simp only [Except.ok.injEq, Prod.mk.injEq] at h
      obtain ⟨-, hw⟩ := h
      subst hw
      rfl

/-- Witness for C9 amended: the store clock, not the client values, lands
in the written user row, and the client value lands in the written
refresh-token row. -/
theorem timestamps_user_rows_store_assigned_witness :
    Repo.AddUser { users := [], tokens := [], nextId := 1 }
        { id := 0, fullName := "A", email := "a", passwordHash := ⟨10, 1, "p"⟩,
          role := "user", isActive := true, createdAt := 3, updatedAt := 4 } 9 =
      Repo.AddUser { users := [], tokens := [], nextId := 1 }
        { id := 0, fullName := "A", email := "a", passwordHash := ⟨10, 1, "p"⟩,
          role := "user", isActive := true, createdAt := 0, updatedAt := 0 } 9 ∧
    (⟨1, "A", "a", ⟨10, 1, "p"⟩, "user", true, 9, 9⟩ : User).createdAt = 9 ∧
    (⟨1, 1, "t", 50, 3⟩ : RefreshToken).createdAt = (⟨0, 1, "t", 50, 3⟩ : RefreshToken).createdAt := by
  refine ⟨?_, ?_, ?_⟩
  · exact timestamps_user_rows_store_assigned.1
      { users := [], tokens := [], nextId := 1 }
      { id := 0, fullName := "A", email := "a", passwordHash := ⟨10, 1, "p"⟩,
        role := "user", isActive := true, createdAt := 0, updatedAt := 0 } 9 3 4
  · exact (timestamps_user_rows_store_assigned.2.1
      { users := [], tokens := [], nextId := 1 }
      { id := 0, fullName := "A", email := "a", passwordHash := ⟨10, 1, "p"⟩,
        role := "user", isActive := true, createdAt := 3, updatedAt := 4 } 9
      { users := [⟨1, "A", "a", ⟨10, 1, "p"⟩, "user", true, 9, 9⟩],
        tokens := [], nextId := 2 }
      ⟨1, "A", "a", ⟨10, 1, "p"⟩, "user", true, 9, 9⟩ rfl).1
  · exact timestamps_user_rows_store_assigned.2.2.2.2.2
      { users := [], tokens := [], nextId := 1 } ⟨0, 1, "t", 50, 3⟩
      { users := [], tokens := [⟨1, 1, "t", 50, 3⟩], nextId := 2 }
      ⟨1, 1, "t", 50, 3⟩ rfl

/-- C1: ValidateRefreshToken reports ErrInvalidCredentials when no stored
refresh token matches; on a matching but expired row it deletes the stale
row (ignoring the outcome of that delete) and reports
ErrInvalidCredentials; on a matching live row it returns the owning user id
and leaves the store unchanged. -/
theorem validateRefreshToken_spec (db : Db) (t : String) (now : Int) (hwf : db.Wf) :
    ((∀ rt, rt ∈ db.tokens → rt.token ≠ t) →
      Service.ValidateRefreshToken db t now = (db, .error .invalidCredentials)) ∧
    (∀ rt, rt ∈ db.tokens → rt.token = t →
      (now > rt.expiresAt →
        Service.ValidateRefreshToken db t now =
          ({ db with tokens := db.tokens.filter (fun x => x.token != t) },
            .error .invalidCredentials)) ∧
      (¬now > rt.expiresAt →
        Service.ValidateRefreshToken db t now = (db, .ok rt.userId))) := by
  constructor
  · intro h
    have hfind : db.tokens.find? (fun rt => rt.token == t) = none := by
      apply find_eq_none_of_not_mem
      intro b hb
      simpa using h b hb
    simp [Service.ValidateRefreshToken, Repo.GetRefreshToken, hfind]
  · intro rt hrt ht
    have hfind : db.tokens.find? (fun x => x.token == t) = some rt := by
      apply find_eq_some_of_unique _ _ _ hrt (by simpa using ht)
      intro b hb hpb
      have hb2 : b.token = t := by simpa using hpb
      exact wf_token_unique db hwf b hb rt hrt (hb2.trans ht.symm)
    constructor
    · intro hexp
      simp [Service.ValidateRefreshToken, Repo.GetRefreshToken,
        Repo.DeleteRefreshToken, hfind, hexp]
    · intro hexp
      simp [Service.ValidateRefreshToken, Repo.GetRefreshToken, hfind, hexp]

/-- Witness for C1: an unknown token, an expired row (which gets deleted)
and a live row, on a concrete store. -/
theorem validateRefreshToken_spec_witness :
    Service.ValidateRefreshToken
      { users := [], tokens := [⟨5, 1, "t", 50, 0⟩], nextId := 6 } "u" 10 =
      ({ users := [], tokens := [⟨5, 1, "t", 50, 0⟩], nextId := 6 },
        .error .invalidCredentials) ∧
    Service.ValidateRefreshToken
      { users := [], tokens := [⟨5, 1, "t", 50, 0⟩], nextId := 6 } "t" 100 =
      ({ users := [], tokens := [], nextId := 6 }, .error .invalidCredentials) ∧
    Service.ValidateRefreshToken
      { users := [], tokens := [⟨5, 1, "t", 50, 0⟩], nextId := 6 } "t" 10 =
      ({ users := [], tokens := [⟨5, 1, "t", 50, 0⟩], nextId := 6 }, .ok 1) := by
  refine ⟨?_, ?_, ?_⟩
  · exact (validateRefreshToken_spec
      { users := [], tokens := [⟨5, 1, "t", 50, 0⟩], nextId := 6 } "u" 10
      (by decide)).1 (by decide)
  · exact ((validateRefreshToken_spec
      { users := [], tokens := [⟨5, 1, "t", 50, 0⟩], nextId := 6 } "t" 100
      (by decide)).2 ⟨5, 1, "t", 50, 0⟩ (by simp) rfl).1 (by decide)
  · exact ((validateRefreshToken_spec
      { users := [], tokens := [⟨5, 1, "t", 50, 0⟩], nextId := 6 } "t" 10
      (by decide)).2 ⟨5, 1, "t", 50, 0⟩ (by simp) rfl).2 (by decide)

/-- C10 counterexample: the fake and real stores do not have identical
not-found and conflict semantics.  On a store holding only user 1 with
email a, updating user 1 to its own current email succeeds in the real
store but the in-memory fake rejects it as a duplicate; on an empty store
a lookup misses with the store signal pgx.ErrNoRows in the real store but
with the domain sentinel ErrUserNotFound in the fake; the fake
GetRefreshToken stub fabricates success where the real store reports
not-found; the fake InsertRefreshToken reports success on a duplicate
token where the real store reports the unique-constraint conflict; and the
fake DeleteRefreshToken reports success while deleting nothing. -/
theorem mock_real_divergence :
    Repo.UpdateUserEmail
      { users := [{ id := 1, fullName := "A", email := "a", passwordHash := ⟨10, 1, "p"⟩,
                    role := "user", isActive := true, createdAt := 0, updatedAt := 0 }],
        tokens := [], nextId := 2 } 1 "a" 9 =
      .ok { users := [{ id := 1, fullName := "A", email := "a", passwordHash := ⟨10, 1, "p"⟩,
                        role := "user", isActive := true, createdAt := 0, updatedAt := 9 }],
            tokens := [], nextId := 2 } ∧
    Mock.UpdateUserEmail
      { users := [{ id := 1, fullName := "A", email := "a", passwordHash := ⟨10, 1, "p"⟩,
                    role := "user", isActive := true, createdAt := 0, updatedAt := 0 }],
        tokens := [], nextId := 2 } 1 "a" 9 = .error .emailAlreadyRegistered ∧
    Repo.GetUserByID { users := [], tokens := [], nextId := 1 } 1 = .error .noRows ∧
    Mock.GetUserByID { users := [], tokens := [], nextId := 1 } 1 = .error .userNotFound ∧
    Repo.GetRefreshToken { users := [], tokens := [], nextId := 1 } "t" = .error .noRows ∧
    Mock.GetRefreshToken { users := [], tokens := [], nextId := 1 } "t" 0 =
      .ok { id := 1, userId := 1, token := "t", expiresAt := 86400, createdAt := 0 } ∧
    Repo.InsertRefreshToken { users := [], tokens := [⟨1, 1, "t", 50, 0⟩], nextId := 2 }
      ⟨0, 2, "t", 60, 0⟩ = .error .uniqueViolation ∧
    Mock.InsertRefreshToken { users := [], tokens := [⟨1, 1, "t", 50, 0⟩], nextId := 2 }
      ⟨0, 2, "t", 60, 0⟩ 0 =
      .ok ({ users := [], tokens := [⟨1, 1, "t", 50, 0⟩], nextId := 3 },
        ⟨2, 2, "t", 60, 0⟩) ∧
    Repo.DeleteRefreshToken { users := [], tokens := [⟨1, 1, "t", 50, 0⟩], nextId := 2 } "t" =
      { users := [], tokens := [], nextId := 2 } ∧
    Mock.DeleteRefreshToken { users := [], tokens := [⟨1, 1, "t", 50, 0⟩], nextId := 2 } "t" =
      { users := [], tokens := [⟨1, 1, "t", 50, 0⟩], nextId := 2 } := by
  refine ⟨rfl, rfl, rfl, rfl, rfl, rfl, rfl, rfl, rfl, rfl⟩

/-- C10 amended: across the store contract the fake and the real store
agree on success and on the not-found or conflict classification of
failures, with these exceptions and caveats.  GetAllUsers always succeeds
in both.  GetUserByID, GetUserByEmail and AddUser succeed on the same
inputs with the same results and otherwise both signal not-found
respectively conflict, though the concrete values differ (the fake returns
the domain sentinels where the real store returns pgx.ErrNoRows or a
unique-constraint violation).  The same holds for UpdateUserPassword,
UpdateUserActiveStatus and DeleteUserByID, and for UpdateUserEmail except
when the new email is the own current email of the target row, where the
real store succeeds and the fake reports a conflict.  For refresh tokens
the fake diverges: its GetRefreshToken stub fabricates success and never
reports not-found (the two agree on success only when the token is
present), and its InsertRefreshToken always reports success, missing the
duplicate-token conflict of the real store (the two agree on success when
the token is fresh); the delete operations report success unconditionally
in both, the state-level difference that the fake deletes nothing being
outside the success and signal scope of this claim. -/
theorem mock_refines_repo (db : Db) (id : Int) (email : String) (u : User)
    (now : Int) (hash : Digest) (b : Bool) (rt : RefreshToken) (t : String) :
    (Repo.GetAllUsers db = .ok db.users ∧ Mock.GetAllUsers db = .ok db.users) ∧
    ((∃ w, Repo.GetUserByID db id = .ok w ∧ Mock.GetUserByID db id = .ok w) ∨
      (Repo.GetUserByID db id = .error .noRows ∧
        Mock.GetUserByID db id = .error .userNotFound)) ∧
    ((∃ w, Repo.GetUserByEmail db email = .ok w ∧ Mock.GetUserByEmail db email = .ok w) ∨
      (Repo.GetUserByEmail db email = .error .noRows ∧
        Mock.GetUserByEmail db email = .error .userNotFound)) ∧
    ((∃ r, Repo.AddUser db u now = .ok r ∧ Mock.AddUser db u now = .ok r) ∨
      (Repo.AddUser db u now = .error .uniqueViolation ∧
        Mock.AddUser db u now = .error .emailAlreadyRegistered)) ∧
    ((∀ w, w ∈ db.users → w.id = id → w.email ≠ email) →
      ((∃ db2, Repo.UpdateUserEmail db id email now = .ok db2 ∧
          Mock.UpdateUserEmail db id email now = .ok db2) ∨
        (Repo.UpdateUserEmail db id email now = .error .noRows ∧
          Mock.UpdateUserEmail db id email now = .error .userNotFound) ∨
        (Repo.UpdateUserEmail db id email now = .error .uniqueViolation ∧
          Mock.UpdateUserEmail db id email now = .error .emailAlreadyRegistered))) ∧
    ((∃ db2, Repo.UpdateUserPassword db id hash now = .ok db2 ∧
        Mock.UpdateUserPassword db id hash now = .ok db2) ∨
      (Repo.UpdateUserPassword db id hash now = .error .noRows ∧
        Mock.UpdateUserPassword db id hash now = .error .userNotFound)) ∧
    ((∃ db2, Repo.UpdateUserActiveStatus db id b now = .ok db2 ∧
        Mock.UpdateUserActiveStatus db id b now = .ok db2) ∨
      (Repo.UpdateUserActiveStatus db id b now = .error .noRows ∧
        Mock.UpdateUserActiveStatus db id b now = .error .userNotFound)) ∧
    ((∃ db2, Repo.DeleteUserByID db id = .ok db2 ∧
        Mock.DeleteUserByID db id = .ok db2) ∨
      (Repo.DeleteUserByID db id = .error .noRows ∧
        Mock.DeleteUserByID db id = .error .userNotFound)) ∧
    ((∀ x, x ∈ db.tokens → x.token ≠ rt.token) →
      (∃ r1, Repo.InsertRefreshToken db rt = .ok r1) ∧
      (∃ r2, Mock.InsertRefreshToken db rt now = .ok r2)) ∧
    (∀ x, x ∈ db.tokens → x.token = t →
      (∃ r1, Repo.GetRefreshToken db t = .ok r1) ∧
      (∃ r2, Mock.GetRefreshToken db t now = .ok r2)) := by
  have hfindid := fun (hid : db.users.any (fun w => w.id == id) = false) => by
    apply find_eq_none_of_not_mem (fun w => w.id == id) db.users
    intro c hc
    have := List.any_eq_false.mp hid c hc
    simpa using this
  refine ⟨⟨rfl, rfl⟩, ?_, ?_, ?_, ?_, ?_, ?_, ?_, ?_, ?_⟩
  · cases hfind : db.users.find? (fun w => w.id == id) with
    | some w => exact Or.inl ⟨w, by simp [Repo.GetUserByID, hfind],
        by simp [Mock.GetUserByID, hfind]⟩
    | none => exact Or.inr ⟨by simp [Repo.GetUserByID, hfind],
        by simp [Mock.GetUserByID, hfind]⟩
  · cases hfind : db.users.find? (fun w => w.email == email) with
    | some w => exact Or.inl ⟨w, by simp [Repo.GetUserByEmail, hfind],
        by simp [Mock.GetUserByEmail, hfind]⟩
    | none => exact Or.inr ⟨by simp [Repo.GetUserByEmail, hfind],
        by simp [Mock.GetUserByEmail, hfind]⟩
  · cases hany : db.users.any (fun w => w.email == u.email) with
    | true => exact Or.inr ⟨by simp [Repo.AddUser, hany], by simp [Mock.AddUser, hany]⟩
    | false =>
      refine Or.inl ⟨({ db with
            users := db.users ++
                       [{ u with id := db.nextId, createdAt := now, updatedAt := now }],
            nextId := db.nextId + 1 },
          { u with id := db.nextId, createdAt := now, updatedAt := now }), ?_, ?_⟩
      · simp [Repo.AddUser, hany]
      · simp [Mock.AddUser, hany]
  · intro hown
    cases hid : db.users.any (fun w => w.id == id) with
    | false =>
      exact Or.inr (Or.inl ⟨by simp [Repo.UpdateUserEmail, hid],
        by simp [Mock.UpdateUserEmail, hfindid hid]⟩)
    | true =>
      obtain ⟨w0, hw0, hw0p⟩ := List.any_eq_true.mp hid
      have hfind : ∃ w1, db.users.find? (fun w => w.id == id) = some w1 := by
        have hsome : (db.users.find? (fun w => w.id == id)).isSome :=
          List.find?_isSome.mpr ⟨w0, hw0, hw0p⟩
        exact Option.isSome_iff_exists.mp hsome
      obtain ⟨w1, hw1⟩ := hfind
      cases hconf : db.users.any (fun w => w.email == email && w.id != id) with
      | true =>
        have hconf2 : db.users.any (fun w => w.email == email) = true := by
          obtain ⟨v, hv, hvp⟩ := List.any_eq_true.mp hconf
          exact List.any_eq_true.mpr ⟨v, hv, by
            simp only [Bool.and_eq_true] at hvp
            exact hvp.1⟩
        exact Or.inr (Or.inr ⟨by simp [Repo.UpdateUserEmail, hid, hconf],
          by simp [Mock.UpdateUserEmail, hw1, hconf2]⟩)
      | false =>
        have hconf2 : db.users.any (fun w => w.email == email) = false := by
          apply any_eq_false_of_all
          intro c hc
          by_cases hcid : c.id = id
          · simpa using hown c hc hcid
          · by_cases hce : c.email = email
            · refine (List.any_eq_false.mp hconf c hc ?_).elim
              simp only [Bool.and_eq_true, beq_iff_eq, bne_iff_ne]
              exact ⟨hce, hcid⟩
            · simpa using hce
        refine Or.inl ⟨{ db with
            users := db.users.map (fun w =>
              if w.id == id then { w with email := email, updatedAt := now }
              else w) }, ?_, ?_⟩
        · simp [Repo.UpdateUserEmail, hid, hconf]
        · simp [Mock.UpdateUserEmail, hw1, hconf2]
  · cases hid : db.users.any (fun w => w.id == id) with
    | false =>
      exact Or.inr ⟨by simp [Repo.UpdateUserPassword, hid],
        by simp [Mock.UpdateUserPassword, hfindid hid]⟩
    | true =>
      obtain ⟨w0, hw0, hw0p⟩ := List.any_eq_true.mp hid
      have hsome : (db.users.find? (fun w => w.id == id)).isSome :=
        List.find?_isSome.mpr ⟨w0, hw0, hw0p⟩
      obtain ⟨w1, hw1⟩ := Option.isSome_iff_exists.mp hsome
      refine Or.inl ⟨{ db with
          users := db.users.map (fun w =>
            if w.id == id then { w with passwordHash := hash, updatedAt := now }
            else w) }, ?_, ?_⟩
      · simp [Repo.UpdateUserPassword, hid]
      · simp [Mock.UpdateUserPassword, hw1]
  · cases hid : db.users.any (fun w => w.id == id) with
    | false =>
      exact Or.inr ⟨by simp [Repo.UpdateUserActiveStatus, hid],
        by simp [Mock.UpdateUserActiveStatus, hfindid hid]⟩
    | true =>
      obtain ⟨w0, hw0, hw0p⟩ := List.any_eq_true.mp hid
      have hsome : (db.users.find? (fun w => w.id == id)).isSome :=
        List.find?_isSome.mpr ⟨w0, hw0, hw0p⟩
      obtain ⟨w1, hw1⟩ := Option.isSome_iff_exists.mp hsome
      refine Or.inl ⟨{ db with
          users := db.users.map (fun w =>
            if w.id == id then { w with isActive := b, updatedAt := now }
            else w) }, ?_, ?_⟩
      · simp [Repo.UpdateUserActiveStatus, hid]
      · simp [Mock.UpdateUserActiveStatus, hw1]
  · cases hid : db.users.any (fun w => w.id == id) with
    | false =>
      exact Or.inr ⟨by simp [Repo.DeleteUserByID, hid],
        by simp [Mock.DeleteUserByID, hfindid hid]⟩
    | true =>
      obtain ⟨w0, hw0, hw0p⟩ := List.any_eq_true.mp hid
      have hsome : (db.users.find? (fun w => w.id == id)).isSome :=
        List.find?_isSome.mpr ⟨w0, hw0, hw0p⟩
      obtain ⟨w1, hw1⟩ := Option.isSome_iff_exists.mp hsome
      refine Or.inl ⟨{ db with users := db.users.filter (fun w => w.id != id) }, ?_, ?_⟩
      · simp [Repo.DeleteUserByID, hid]
      · simp [Mock.DeleteUserByID, hw1]
  · intro hfresh
    have hany : db.tokens.any (fun x => x.token == rt.token) = false := by
      apply any_eq_false_of_all
      intro x hx
      simpa using hfresh x hx
    constructor
    · refine ⟨({ db with
                   tokens := db.tokens ++ [{ rt with id := db.nextId }],
                   nextId := db.nextId + 1 },
                 { rt with id := db.nextId }), ?_⟩
      simp [Repo.InsertRefreshToken, hany]
    · exact ⟨({ db with nextId := db.nextId + 1 }, { rt with id := db.nextId, createdAt := now }), rfl⟩
  · intro x hx hxt
    constructor
    · have hsome : (db.tokens.find? (fun y => y.token == t)).isSome :=
        List.find?_isSome.mpr ⟨x, hx, by simpa using hxt⟩
      obtain ⟨r, hr⟩ := Option.isSome_iff_exists.mp hsome
      exact ⟨r, by simp [Repo.GetRefreshToken, hr]⟩
    · exact ⟨{ id := 1, userId := 1, token := t, expiresAt := now + 86400, createdAt := now }, rfl⟩

/-- Witness for C10 amended, exercising the three conditioned conjuncts on
concrete stores: an email update where the new email is not the own email
of the target row, a refresh-token insert with a fresh token, and a
refresh-token fetch of a present token. -/
theorem mock_refines_repo_witness :
    ((∃ db2, Repo.UpdateUserEmail
        { users := [{ id := 1, fullName := "A", email := "a", passwordHash := ⟨10, 1, "p"⟩,
                      role := "user", isActive := true, createdAt := 0, updatedAt := 0 }],
          tokens := [], nextId := 2 } 1 "c" 9 = .ok db2 ∧
      Mock.UpdateUserEmail
        { users := [{ id := 1, fullName := "A", email := "a", passwordHash := ⟨10, 1, "p"⟩,
                      role := "user", isActive := true, createdAt := 0, updatedAt := 0 }],
          tokens := [], nextId := 2 } 1 "c" 9 = .ok db2) ∨
    (Repo.UpdateUserEmail
        { users := [{ id := 1, fullName := "A", email := "a", passwordHash := ⟨10, 1, "p"⟩,
                      role := "user", isActive := true, createdAt := 0, updatedAt := 0 }],
          tokens := [], nextId := 2 } 1 "c" 9 = .error .noRows ∧
      Mock.UpdateUserEmail
        { users := [{ id := 1, fullName := "A", email := "a", passwordHash := ⟨10, 1, "p"⟩,
                      role := "user", isActive := true, createdAt := 0, updatedAt := 0 }],
          tokens := [], nextId := 2 } 1 "c" 9 = .error .userNotFound) ∨
    (Repo.UpdateUserEmail
        { users := [{ id := 1, fullName := "A", email := "a", passwordHash := ⟨10, 1, "p"⟩,
                      role := "user", isActive := true, createdAt := 0, updatedAt := 0 }],
          tokens := [], nextId := 2 } 1 "c" 9 = .error .uniqueViolation ∧
      Mock.UpdateUserEmail
        { users := [{ id := 1, fullName := "A", email := "a", passwordHash := ⟨10, 1, "p"⟩,
                      role := "user", isActive := true, createdAt := 0, updatedAt := 0 }],
          tokens := [], nextId := 2 } 1 "c" 9 = .error .emailAlreadyRegistered)) ∧
    ((∃ r1, Repo.InsertRefreshToken
        { users := [], tokens := [⟨1, 1, "t", 50, 0⟩], nextId := 2 }
        ⟨0, 1, "u", 60, 0⟩ = .ok r1) ∧
      (∃ r2, Mock.InsertRefreshToken
        { users := [], tokens := [⟨1, 1, "t", 50, 0⟩], nextId := 2 }
        ⟨0, 1, "u", 60, 0⟩ 7 = .ok r2)) ∧
    ((∃ r1, Repo.GetRefreshToken
        { users := [], tokens := [⟨1, 1, "t", 50, 0⟩], nextId := 2 } "t" = .ok r1) ∧
      (∃ r2, Mock.GetRefreshToken
        { users := [], tokens := [⟨1, 1, "t", 50, 0⟩], nextId := 2 } "t" 7 = .ok r2)) := by
  refine ⟨?_, ?_, ?_⟩
  · exact (mock_refines_repo
      { users := [{ id := 1, fullName := "A", email := "a", passwordHash := ⟨10, 1, "p"⟩,
                    role := "user", isActive := true, createdAt := 0, updatedAt := 0 }],
        tokens := [], nextId := 2 } 1 "c"
      { id := 0, fullName := "Z", email := "z", passwordHash := ⟨10, 9, "w"⟩,
        role := "user", isActive := true, createdAt := 0, updatedAt := 0 } 9
      ⟨10, 3, "h"⟩ true ⟨0, 1, "u", 60, 0⟩ "t").2.2.2.2.1 (by decide)
  · exact (mock_refines_repo
      { users := [], tokens := [⟨1, 1, "t", 50, 0⟩], nextId := 2 } 1 "c"
      { id := 0, fullName := "Z", email := "z", passwordHash := ⟨10, 9, "w"⟩,
        role := "user", isActive := true, createdAt := 0, updatedAt := 0 } 7
      ⟨10, 3, "h"⟩ true ⟨0, 1, "u", 60, 0⟩ "t").2.2.2.2.2.2.2.2.1 (by decide)
  · exact (mock_refines_repo
      { users := [], tokens := [⟨1, 1, "t", 50, 0⟩], nextId := 2 } 1 "c"
      { id := 0, fullName := "Z", email := "z", passwordHash := ⟨10, 9, "w"⟩,
        role := "user", isActive := true, createdAt := 0, updatedAt := 0 } 7
      ⟨10, 3, "h"⟩ true ⟨0, 1, "u", 60, 0⟩ "t").2.2.2.2.2.2.2.2.2
      ⟨1, 1, "t", 50, 0⟩ (by simp) rfl

end BankApp
